import Mathlib

/-!
# Seller backend (`src/backend/index.js`)

A shallow embedding of the Express route handlers of the shop backend and the
properties of its authentication, admin-gate and order-placement flows.

Modelling conventions.

* JavaScript values (request fields, query parameters, result rows, response
  bodies) are values of `Json`; a JavaScript object is an association list.
* A handler is a tree `Prog`: it either ends the request (`send`, `next`,
  `crash`) or issues one `db.query` and continues with the callback applied to
  the store's answer.  Each request is followed on its own, one callback after
  the other.
* The database is not part of the repository.  General statements quantify over
  an arbitrary `Db`; statements about table contents use the in-memory model
  `mysql`.
* `bcrypt` and the `validator` predicates `isEmail`, `normalizeEmail`, `trim`
  are library functions and are taken as parameters.
-/

namespace Seller

/-! ## Values -/

/-- JavaScript / JSON values.  A number is kept as the decimal literal it was
written as: `num m d` stands for `m / 10^d` (so `9.99` is `num 999 2`); the
handlers never compute with numbers, they only pass them on. -/
inductive Json where
  | undefined
  | null
  | bool (b : Bool)
  | num (mantissa : Int) (decimals : Nat)
  | str (s : String)
  | arr (xs : List Json)
  | obj (kvs : List (String × Json))

/-- A JavaScript object: a result row, a result header, a request body. -/
abbrev Row := List (String × Json)

/-- Property read `o.k` on an object; a missing property is `undefined`. -/
def Row.get (r : Row) (k : String) : Json :=
  (r.lookup k).getD Json.undefined

/-- The keys of an object. -/
def Row.keys (r : Row) : List String :=
  r.map Prod.fst

/-- The statement `delete o.k`. -/
def Row.delete (r : Row) (k : String) : Row :=
  r.filter fun kv => kv.1 != k

/-- Property read `v.k` on an arbitrary value.  Reading a property of
`undefined` or `null` throws a `TypeError` (`none`); on a primitive or an array
the properties read by the handlers do not exist and the read is `undefined`. -/
def Json.prop (v : Json) (k : String) : Option Json :=
  match v with
  | .undefined => none
  | .null => none
  | .obj kvs => some (Row.get kvs k)
  | _ => some .undefined

/-- The comparison `v === s` against a string literal. -/
def Json.strictEqStr (v : Json) (s : String) : Bool :=
  match v with
  | .str t => t == s
  | _ => false

/-- A natural number as a JSON number. -/
def Json.ofNat (n : Nat) : Json :=
  .num (Int.ofNat n) 0

/-- A string field of a request body that may be absent (`undefined`). -/
def optStr : Option String → Json
  | none => .undefined
  | some s => .str s

/-! ## Requests, statements and the store interface -/

/-- An Express request: `req.body`, `req.params` and `req.query`. -/
structure Req where
  body : Row
  params : Row
  query : Row

/-- The SQL statements that the modelled handlers send. -/
inductive Stmt where
  | insertProduct
  | updateProduct
  | selectUserByEmail
  | selectIdByEmail
  | insertUser
  | insertCategory
  | insertCartItem
  | insertOrder
  | insertOrderItems
  | updateUser
  | selectRole
  | totalSales
  | totalOrders
  | totalUsers
  | lowStock
  | adminOrders
  | updateOrderStatus
  | adminUsers
  | updateUserRole
  | adminProducts
  | updateStock
  | salesReport
  | topProducts
  | customerAnalytics
  deriving DecidableEq

/-- The text of each statement, as written in the source. -/
def Stmt.sql : Stmt → String
  | .insertProduct => "INSERT INTO products (name, price, description) VALUES (?, ?, ?)"
  | .updateProduct => "UPDATE products SET ? WHERE id = ?"
  | .selectUserByEmail => "SELECT * FROM users WHERE email = ?"
  | .selectIdByEmail => "SELECT id FROM users WHERE email = ?"
  | .insertUser =>
    "INSERT INTO users (name, email, password, role, created_at) VALUES (?, ?, ?, \x27user\x27, NOW())"
  | .insertCategory => "INSERT INTO categories (name, description) VALUES (?, ?)"
  | .insertCartItem => "INSERT INTO cart_items (user_id, product_id, quantity) VALUES (?, ?, ?)"
  | .insertOrder => "INSERT INTO orders (user_id, total_amount, shipping_address) VALUES (?, ?, ?)"
  | .insertOrderItems => "INSERT INTO order_items (order_id, product_id, quantity, price) VALUES ?"
  | .updateUser => "UPDATE users SET name = ?, email = ? WHERE id = ?"
  | .selectRole => "SELECT role FROM users WHERE id = ?"
  | .totalSales => "SELECT SUM(total_amount) as total_sales FROM orders"
  | .totalOrders => "SELECT COUNT(*) as total_orders FROM orders"
  | .totalUsers => "SELECT COUNT(*) as total_users FROM users"
  | .lowStock => "SELECT COUNT(*) as low_stock FROM products WHERE stock < 10"
  | .adminOrders =>
    "SELECT o.*, u.name as customer_name, u.email as customer_email FROM orders o JOIN users u ON o.user_id = u.id ORDER BY o.created_at DESC"
  | .updateOrderStatus => "UPDATE orders SET status = ? WHERE id = ?"
  | .adminUsers => "SELECT id, name, email, role, created_at FROM users"
  | .updateUserRole => "UPDATE users SET role = ? WHERE id = ?"
  | .adminProducts =>
    "SELECT p.*, c.name as category_name FROM products p LEFT JOIN categories c ON p.category_id = c.id"
  | .updateStock => "UPDATE products SET stock = ? WHERE id = ?"
  | .salesReport =>
    "SELECT DATE(created_at) as date, COUNT(*) as orders, SUM(total_amount) as revenue FROM orders WHERE created_at BETWEEN ? AND ? GROUP BY DATE(created_at) ORDER BY date DESC"
  | .topProducts =>
    "SELECT p.id, p.name, SUM(oi.quantity) as total_sold, SUM(oi.quantity * oi.price) as revenue FROM products p JOIN order_items oi ON p.id = oi.product_id GROUP BY p.id ORDER BY total_sold DESC LIMIT 10"
  | .customerAnalytics =>
    "SELECT u.id, u.name, COUNT(DISTINCT o.id) as total_orders, SUM(o.total_amount) as total_spent FROM users u LEFT JOIN orders o ON u.id = o.user_id GROUP BY u.id ORDER BY total_spent DESC"

/-- One call `db.query(sql, values, callback)`: the statement and the values
bound to its placeholders. -/
structure Query where
  stmt : Stmt
  values : List Json

/-- A handler as the tree of its store calls.  `select` is a `db.query` of a
SELECT statement, whose callback receives an error or the array of rows;
`write` is a `db.query` of an INSERT or UPDATE, whose callback receives an
error or the result header object.  `send st b` is `res.status(st).json(b)`,
`next` is the middleware calling `next()`, and `crash` is an exception or
promise rejection that nothing catches, so that no response is written. -/
inductive Prog where
  | send (status : Nat) (body : Json)
  | next
  | crash
  | select (q : Query) (k : Except Json (List Row) → Prog)
  | write (q : Query) (k : Except Json Row → Prog)

/-- The store behind `db`: how it answers a query in a state and the state it
is left in. -/
structure Db (σ : Type) where
  select : Query → σ → Except Json (List Row) × σ
  write : Query → σ → Except Json Row × σ

/-- How a request ended. -/
inductive Outcome where
  | sent (status : Nat) (body : Json)
  | next
  | crashed

/-- The result of running a handler: how it ended, the store state it left and
the queries it issued, in order. -/
structure Run (σ : Type) where
  outcome : Outcome
  store : σ
  trace : List Query

/-- Record one more query in front of a run. -/
def Run.after {σ : Type} (q : Query) (r : Run σ) : Run σ :=
  ⟨r.outcome, r.store, q :: r.trace⟩

/-- Run a handler against a store. -/
def Prog.run {σ : Type} (db : Db σ) : Prog → σ → Run σ
  | .send st b, s => ⟨.sent st b, s, []⟩
  | .next, s => ⟨.next, s, []⟩
  | .crash, s => ⟨.crashed, s, []⟩
  | .select q k, s => Run.after q ((k (db.select q s).1).run db (db.select q s).2)
  | .write q k, s => Run.after q ((k (db.write q s).1).run db (db.write q s).2)

/-- Middleware composition `app.METHOD(path, mw, handler)`: where the
middleware calls `next()`, the handler takes over. -/
def Prog.andThen : Prog → Prog → Prog
  | .send st b, _ => .send st b
  | .next, h => h
  | .crash, _ => .crash
  | .select q k, h => .select q fun r => (k r).andThen h
  | .write q k, h => .write q fun r => (k r).andThen h

/-! ## Validation (`express-validator`) -/

/-- The `validator` library functions used by the chains whose definition is
not needed here. -/
structure ValidatorLib where
  isEmail : String → Bool
  normalizeEmail : String → String
  trim : String → String

/-- One entry of `validationResult(req).array()`. -/
structure FieldError where
  path : String
  msg : String
  value : Option String
  deriving DecidableEq

/-- The JSON form of a validation error, in the layout of `express-validator` 7. -/
def FieldError.toJson (e : FieldError) : Json :=
  .obj [("type", .str "field"), ("value", optStr e.value), ("msg", .str e.msg),
    ("path", .str e.path), ("location", .str "body")]

/-- The body of `/login` and `/register`: string fields, each possibly absent. -/
structure AuthBody where
  name : Option String
  email : Option String
  password : Option String

/-- The string a validator sees for a field: an absent field is the empty string. -/
def fieldText (v : Option String) : String :=
  v.getD ""

/-- The variation selectors U+FE0E and U+FE0F, which `isLength` leaves out of
its count. -/
def isPresentationSelector (c : Char) : Bool :=
  c == Char.ofNat 0xFE0E || c == Char.ofNat 0xFE0F

/-- The length that `isLength` of `validator` measures:
`str.length - presentationSequences.length - surrogatePairs.length`.  A
surrogate pair counts once, which is the count in code points; the variation
selectors are then taken off. -/
def validatorLength (s : String) : Nat :=
  s.length - s.toList.countP isPresentationSelector

/-- The check `isLength(\x7b min, max \x7d)` of `validator`: the measured length
lies between `min` and `max`. -/
def isLength (s : String) (min : Nat) (max : Option Nat) : Bool :=
  decide (min ≤ validatorLength s) &&
    match max with
    | none => true
    | some m => decide (validatorLength s ≤ m)

/-- The check `notEmpty()`. -/
def notEmpty (s : String) : Bool :=
  s.length != 0

/-- Line terminators, which `.` does not match in a regular expression without
the `s` flag. -/
def isLineTerminator (c : Char) : Bool :=
  c == '\n' || c == '\r' || c == Char.ofNat 0x2028 || c == Char.ofNat 0x2029

/-- The class `\d`. -/
def isDigit (c : Char) : Bool :=
  '0' ≤ c && c ≤ '9'

/-- The class `[a-z]`. -/
def isLower (c : Char) : Bool :=
  'a' ≤ c && c ≤ 'z'

/-- The class `[A-Z]`. -/
def isUpper (c : Char) : Bool :=
  'A' ≤ c && c ≤ 'Z'

/-- The class `[!@#$%^&*]`. -/
def isSpecial (c : Char) : Bool :=
  c == '!' || c == '@' || c == '#' || c == '$' || c == '%' || c == '^' || c == '&' || c == '*'

/-- The lookahead `(?=.*X)` tried at the head of `cs`: some run of characters
that are not line terminators is followed by a character of class `X`. -/
def dotStarThen (p : Char → Bool) : List Char → Bool
  | [] => false
  | c :: cs => p c || (!isLineTerminator c && dotStarThen p cs)

/-- The check `matches(/^(?=.*\d)(?=.*[a-z])(?=.*[A-Z])(?=.*[!@#$%^&*])/)`: the
pattern is anchored at the start of the string, where the four lookaheads must
all succeed. -/
def matchesPasswordPattern (s : String) : Bool :=
  dotStarThen isDigit s.toList && dotStarThen isLower s.toList &&
    dotStarThen isUpper s.toList && dotStarThen isSpecial s.toList

/-- The message attached to the pattern check by `withMessage`. -/
def passwordMessage : String :=
  "Password must be at least 8 characters long and contain at least one uppercase letter, one lowercase letter, one number, and one special character"

/-- The chain `body(password).isLength(min 8).matches(...).withMessage(...)` of
`registerValidation`: the errors it records for a password. -/
def registerPasswordErrors (v : Option String) : List FieldError :=
  (if isLength (fieldText v) 8 none then [] else [⟨"password", "Invalid value", v⟩]) ++
    (if matchesPasswordPattern (fieldText v) then [] else [⟨"password", passwordMessage, v⟩])

/-- The registration password rule accepts a password when its chain records no error. -/
def registerPasswordOk (pw : String) : Bool :=
  (registerPasswordErrors (some pw)).isEmpty

/-- The middleware `loginValidation`: the errors it records and the body with
the sanitizers applied. -/
def loginValidation (lib : ValidatorLib) (b : AuthBody) : List FieldError × AuthBody :=
  ((if lib.isEmail (fieldText b.email) then [] else [⟨"email", "Invalid value", b.email⟩]) ++
    (if notEmpty (fieldText b.password) then [] else [⟨"password", "Invalid value", b.password⟩]),
   { b with email := b.email.map lib.normalizeEmail })

/-- The middleware `registerValidation`: the errors it records and the body
with the sanitizers applied.  `trim` runs before the length check of the name
and turns the field into a string, so the name that is checked, reported in
the error and left in the body is the trimmed text, also when the field was
absent. -/
def registerValidation (lib : ValidatorLib) (b : AuthBody) : List FieldError × AuthBody :=
  ((if isLength (lib.trim (fieldText b.name)) 2 (some 50) then []
      else [⟨"name", "Invalid value", some (lib.trim (fieldText b.name))⟩]) ++
    (if lib.isEmail (fieldText b.email) then [] else [⟨"email", "Invalid value", b.email⟩]) ++
    registerPasswordErrors b.password,
   { b with
     name := some (lib.trim (fieldText b.name)),
     email := b.email.map lib.normalizeEmail })

/-! ## Authentication handlers -/

/-- The two `bcrypt` calls.  `hash pw rounds` is the string that
`bcrypt.hash(pw, rounds)` resolves to.  `compare pw stored` is the boolean that
`bcrypt.compare(pw, stored)` resolves to, or `none` when the promise is
rejected (the stored value is not a string). -/
structure Bcrypt where
  hash : String → Nat → String
  compare : String → Json → Option Bool

/-- The handler of `POST /login`, given `validationResult(req)` and the
sanitized body. -/
def postLogin (bc : Bcrypt) (errors : List FieldError) (body : AuthBody) : Prog :=
  if !errors.isEmpty then
    .send 400 (.obj [("errors", .arr (errors.map FieldError.toJson))])
  else
    .select ⟨.selectUserByEmail, [optStr body.email]⟩ fun res =>
      match res with
      | .error _ => .send 500 (.obj [("error", .str "Database error")])
      | .ok [] => .send 401 (.obj [("error", .str "Invalid credentials")])
      | .ok (user :: _) =>
        match body.password with
        | none => .crash
        | some password =>
          match bc.compare password (user.get "password") with
          | none => .crash
          | some false => .send 401 (.obj [("error", .str "Invalid credentials")])
          | some true =>
            .send 200 (.obj [("message", .str "Login successful"),
              ("user", .obj (user.delete "password"))])

/-- The route `app.post("/login", loginValidation, handler)`. -/
def loginRoute (lib : ValidatorLib) (bc : Bcrypt) (b : AuthBody) : Prog :=
  postLogin bc (loginValidation lib b).1 (loginValidation lib b).2

/-- The handler of `POST /register`, given `validationResult(req)` and the
sanitized body. -/
def postRegister (bc : Bcrypt) (errors : List FieldError) (body : AuthBody) : Prog :=
  if !errors.isEmpty then
    .send 400 (.obj [("errors", .arr (errors.map FieldError.toJson))])
  else
    .select ⟨.selectIdByEmail, [optStr body.email]⟩ fun res =>
      match res with
      | .error _ => .send 500 (.obj [("error", .str "Database error")])
      | .ok (_ :: _) => .send 400 (.obj [("error", .str "Email already registered")])
      | .ok [] =>
        match body.password with
        | none => .crash
        | some password =>
          .write ⟨.insertUser, [optStr body.name, optStr body.email, .str (bc.hash password 10)]⟩
            fun res =>
              match res with
              | .error _ => .send 500 (.obj [("error", .str "Failed to register user")])
              | .ok data =>
                .send 201 (.obj [("message", .str "Registration successful"),
                  ("userId", data.get "insertId")])

/-- The route `app.post("/register", registerValidation, handler)`. -/
def registerRoute (lib : ValidatorLib) (bc : Bcrypt) (b : AuthBody) : Prog :=
  postRegister bc (registerValidation lib b).1 (registerValidation lib b).2

/-! ## Pass-through handlers -/

/-- The callback shared by the pass-through handlers of a write:
`if (err) return res.json(err); return res.json(data);`. -/
def echoWrite : Except Json Row → Prog
  | .error err => .send 200 err
  | .ok data => .send 200 (.obj data)

/-- The same callback for a SELECT, whose result is an array of rows. -/
def echoRows : Except Json (List Row) → Prog
  | .error err => .send 200 err
  | .ok data => .send 200 (.arr (data.map Json.obj))

/-- The handler of `POST /create`. -/
def postCreate (req : Req) : Prog :=
  .write ⟨.insertProduct, [req.body.get "name", req.body.get "price", req.body.get "description"]⟩
    echoWrite

/-- The handler of `PUT /products/:id`. -/
def putProduct (req : Req) : Prog :=
  .write ⟨.updateProduct,
      [.arr [req.body.get "name", req.body.get "price", req.body.get "description"],
        req.params.get "id"]⟩
    echoWrite

/-- The handler of `POST /categories`. -/
def postCategories (req : Req) : Prog :=
  .write ⟨.insertCategory, [req.body.get "name", req.body.get "description"]⟩ echoWrite

/-- The handler of `POST /cart`. -/
def postCart (req : Req) : Prog :=
  .write ⟨.insertCartItem,
      [req.body.get "userId", req.body.get "productId", req.body.get "quantity"]⟩
    echoWrite

/-- The handler of `PUT /users/:userId`. -/
def putUser (req : Req) : Prog :=
  .write ⟨.updateUser, [req.body.get "name", req.body.get "email", req.params.get "userId"]⟩
    echoWrite

/-! ## Order placement -/

/-- The row built for one entry of `items`:
`[orderId, item.productId, item.quantity, item.price]`.  Reading a property of
a `null` entry throws. -/
def orderItemRow (orderId : Json) (item : Json) : Option Json :=
  match item.prop "productId", item.prop "quantity", item.prop "price" with
  | some productId, some quantity, some price => some (.arr [orderId, productId, quantity, price])
  | _, _, _ => none

/-- The expression `req.body.items.map(item => [...])`; it throws when `items`
is not an array or an entry cannot be read. -/
def orderItemsValues (orderId : Json) (items : Json) : Option (List Json) :=
  match items with
  | .arr xs => xs.mapM (orderItemRow orderId)
  | _ => none

/-- The handler of `POST /orders`. -/
def postOrders (req : Req) : Prog :=
  .write ⟨.insertOrder,
      [req.body.get "userId", req.body.get "totalAmount", req.body.get "shippingAddress"]⟩
    fun res =>
      match res with
      | .error err => .send 200 err
      | .ok orderResult =>
        match orderItemsValues (orderResult.get "insertId") (req.body.get "items") with
        | none => .crash
        | some orderItemsValues =>
          .write ⟨.insertOrderItems, [.arr orderItemsValues]⟩ fun res =>
            match res with
            | .error err => .send 200 err
            | .ok _ =>
              .send 200 (.obj [("orderId", orderResult.get "insertId"),
                ("message", .str "Order placed successfully")])

/-! ## The admin gate and the admin routes -/

/-- The middleware `isAdmin`. -/
def isAdmin (req : Req) : Prog :=
  .select ⟨.selectRole, [req.body.get "userId"]⟩ fun res =>
    match res with
    | .error err => .send 500 err
    | .ok [] => .send 403 (.obj [("message", .str "Unauthorized: Admin access required")])
    | .ok (first :: _) =>
      if !(first.get "role").strictEqStr "admin" then
        .send 403 (.obj [("message", .str "Unauthorized: Admin access required")])
      else
        .next

/-- The handler of `GET /admin/dashboard`: four reads, one inside the callback
of the other; reading `[0]` of an empty result throws. -/
def adminDashboard (_req : Req) : Prog :=
  .select ⟨.totalSales, []⟩ fun res =>
    match res with
    | .error err => .send 200 err
    | .ok [] => .crash
    | .ok (sales :: _) =>
      .select ⟨.totalOrders, []⟩ fun res =>
        match res with
        | .error err => .send 200 err
        | .ok [] => .crash
        | .ok (orders :: _) =>
          .select ⟨.totalUsers, []⟩ fun res =>
            match res with
            | .error err => .send 200 err
            | .ok [] => .crash
            | .ok (users :: _) =>
              .select ⟨.lowStock, []⟩ fun res =>
                match res with
                | .error err => .send 200 err
                | .ok [] => .crash
                | .ok (stock :: _) =>
                  .send 200 (.obj [("totalSales", sales.get "total_sales"),
                    ("totalOrders", orders.get "total_orders"),
                    ("totalUsers", users.get "total_users"),
                    ("lowStockProducts", stock.get "low_stock")])

/-- The handler of `GET /admin/orders`. -/
def adminOrders (_req : Req) : Prog :=
  .select ⟨.adminOrders, []⟩ echoRows

/-- The handler of `PUT /admin/orders/:orderId`. -/
def adminUpdateOrder (req : Req) : Prog :=
  .write ⟨.updateOrderStatus, [req.body.get "status", req.params.get "orderId"]⟩ echoWrite

/-- The handler of `GET /admin/users`. -/
def adminUsers (_req : Req) : Prog :=
  .select ⟨.adminUsers, []⟩ echoRows

/-- The handler of `PUT /admin/users/:userId`. -/
def adminUpdateUser (req : Req) : Prog :=
  .write ⟨.updateUserRole, [req.body.get "role", req.params.get "userId"]⟩ echoWrite

/-- The handler of `GET /admin/products`. -/
def adminProducts (_req : Req) : Prog :=
  .select ⟨.adminProducts, []⟩ echoRows

/-- The handler of `PUT /admin/products/:id/stock`. -/
def adminUpdateStock (req : Req) : Prog :=
  .write ⟨.updateStock, [req.body.get "stock", req.params.get "id"]⟩ echoWrite

/-- The handler of `GET /admin/reports/sales`. -/
def adminSalesReport (req : Req) : Prog :=
  .select ⟨.salesReport, [req.query.get "start_date", req.query.get "end_date"]⟩ echoRows

/-- The handler of `GET /admin/reports/top-products`. -/
def adminTopProducts (_req : Req) : Prog :=
  .select ⟨.topProducts, []⟩ echoRows

/-- The handler of `GET /admin/reports/customer-analytics`. -/
def adminCustomerAnalytics (_req : Req) : Prog :=
  .select ⟨.customerAnalytics, []⟩ echoRows

/-- A registered route: verb, path, the middleware in front and the handler. -/
structure Route where
  verb : String
  path : String
  middleware : List (Req → Prog)
  handler : Req → Prog

/-- What a route does with a request: the middleware in order, then the handler. -/
def Route.prog (r : Route) (req : Req) : Prog :=
  r.middleware.foldr (fun mw rest => (mw req).andThen rest) (r.handler req)

/-- The routes registered under `/admin/`. -/
def adminRoutes : List Route :=
  [⟨"GET", "/admin/dashboard", [isAdmin], adminDashboard⟩,
   ⟨"GET", "/admin/orders", [isAdmin], adminOrders⟩,
   ⟨"PUT", "/admin/orders/:orderId", [isAdmin], adminUpdateOrder⟩,
   ⟨"GET", "/admin/users", [isAdmin], adminUsers⟩,
   ⟨"PUT", "/admin/users/:userId", [isAdmin], adminUpdateUser⟩,
   ⟨"GET", "/admin/products", [isAdmin], adminProducts⟩,
   ⟨"PUT", "/admin/products/:id/stock", [isAdmin], adminUpdateStock⟩,
   ⟨"GET", "/admin/reports/sales", [isAdmin], adminSalesReport⟩,
   ⟨"GET", "/admin/reports/top-products", [isAdmin], adminTopProducts⟩,
   ⟨"GET", "/admin/reports/customer-analytics", [isAdmin], adminCustomerAnalytics⟩]

/-- The routes outside `/admin/` that write a record built from body fields
with a single statement and no middleware. -/
def writeRoutes : List Route :=
  [⟨"POST", "/create", [], postCreate⟩,
   ⟨"PUT", "/products/:id", [], putProduct⟩,
   ⟨"POST", "/categories", [], postCategories⟩,
   ⟨"POST", "/cart", [], postCart⟩,
   ⟨"PUT", "/users/:userId", [], putUser⟩]

/-! ## An in-memory model of the database

The tables `users`, `orders` and `order_items` as lists of rows, with the
statements of the authentication, admin-gate and order flows given their SQL
meaning.  A statement either takes effect as a whole or fails and changes
nothing; every statement is committed on its own (the source opens no
transaction).  Failures of the server (lost connection, violated constraint)
are injected through `fault`, which names the error a query fails with. -/

/-- The contents of the database. -/
structure Store where
  users : List Row
  orders : List Row
  orderItems : List Row
  nextUserId : Nat
  nextOrderId : Nat
  now : Json
  orderStatus : Json

/-- The value bound to a placeholder: `undefined` is sent as `NULL`. -/
def sqlValue : Json → Json
  | .undefined => .null
  | v => v

/-- The comparison `column = ?` of a WHERE clause: equal strings or equal
numbers; a comparison with `NULL` never holds. -/
def sqlEq : Json → Json → Bool
  | .str a, .str b => a == b
  | .num m d, .num n e => m == n && d == e
  | _, _ => false

/-- The result header of a successful INSERT. -/
def resultHeader (affectedRows insertId : Nat) : Row :=
  [("fieldCount", .ofNat 0), ("affectedRows", .ofNat affectedRows), ("insertId", .ofNat insertId)]

/-- The row that `Stmt.insertUser` adds: the literal role `user` and the
current time come from the statement itself. -/
def userRow (id : Nat) (name email password createdAt : Json) : Row :=
  [("id", .ofNat id), ("name", sqlValue name), ("email", sqlValue email),
    ("password", sqlValue password), ("role", .str "user"), ("created_at", createdAt)]

/-- The row that `Stmt.insertOrder` adds; `status` and `created_at` take the
defaults of the table. -/
def orderRow (id : Nat) (userId totalAmount shippingAddress status createdAt : Json) : Row :=
  [("id", .ofNat id), ("user_id", sqlValue userId), ("total_amount", sqlValue totalAmount),
    ("shipping_address", sqlValue shippingAddress), ("status", status), ("created_at", createdAt)]

/-- One tuple of the bulk `VALUES ?` of `Stmt.insertOrderItems` as a row of
`order_items`; a tuple that does not have four values does not fit the column list. -/
def orderItemOfValues : Json → Option Row
  | .arr [orderId, productId, quantity, price] =>
    some [("order_id", sqlValue orderId), ("product_id", sqlValue productId),
      ("quantity", sqlValue quantity), ("price", sqlValue price)]
  | _ => none

/-- The error of a statement the model does not cover. -/
def unsupportedStatement : Json :=
  .obj [("code", .str "ER_NO_SUCH_TABLE")]

/-- The error of a bulk insert whose list of tuples is empty or ill-formed. -/
def parseError : Json :=
  .obj [("code", .str "ER_PARSE_ERROR")]

/-- The database model. -/
def mysql (fault : Query → Option Json) : Db Store where
  select q s :=
    match fault q with
    | some err => (.error err, s)
    | none =>
      match q.stmt, q.values with
      | .selectUserByEmail, [email] =>
        (.ok (s.users.filter fun u => sqlEq (u.get "email") email), s)
      | .selectIdByEmail, [email] =>
        (.ok ((s.users.filter fun u => sqlEq (u.get "email") email).map
          fun u => [("id", u.get "id")]), s)
      | .selectRole, [id] =>
        (.ok ((s.users.filter fun u => sqlEq (u.get "id") id).map
          fun u => [("role", u.get "role")]), s)
      | _, _ => (.error unsupportedStatement, s)
  write q s :=
    match fault q with
    | some err => (.error err, s)
    | none =>
      match q.stmt, q.values with
      | .insertUser, [name, email, password] =>
        (.ok (resultHeader 1 s.nextUserId),
          { s with
            users := s.users ++ [userRow s.nextUserId name email password s.now],
            nextUserId := s.nextUserId + 1 })
      | .insertOrder, [userId, totalAmount, shippingAddress] =>
        (.ok (resultHeader 1 s.nextOrderId),
          { s with
            orders := s.orders ++
              [orderRow s.nextOrderId userId totalAmount shippingAddress s.orderStatus s.now],
            nextOrderId := s.nextOrderId + 1 })
      | .insertOrderItems, [.arr tuples] =>
        match tuples, tuples.mapM orderItemOfValues with
        | _ :: _, some rows =>
          (.ok (resultHeader rows.length 0), { s with orderItems := s.orderItems ++ rows })
        | _, _ => (.error parseError, s)
      | _, _ => (.error unsupportedStatement, s)

/-- A server on which no query fails for an outside reason. -/
def noFault : Query → Option Json :=
  fun _ => none

/-- A store that gives the same answers to every query and has no state. -/
def fixedDb (rows : Except Json (List Row)) (header : Except Json Row) : Db Unit where
  select _ s := (rows, s)
  write _ s := (header, s)

/-! ## Vocabulary of the statements -/

/-- The lookup that `POST /login` sends for a body. -/
def loginQuery (lib : ValidatorLib) (b : AuthBody) : Query :=
  ⟨.selectUserByEmail, [optStr (b.email.map lib.normalizeEmail)]⟩

/-- The body of the response to a failed login. -/
def invalidCredentials : Json :=
  .obj [("error", .str "Invalid credentials")]

/-- The body `\x7b errors: errors.array() \x7d` of a rejected input. -/
def validationErrors (errors : List FieldError) : Json :=
  .obj [("errors", .arr (errors.map FieldError.toJson))]

/-- The role lookup that `isAdmin` sends for a request. -/
def roleQuery (req : Req) : Query :=
  ⟨.selectRole, [req.body.get "userId"]⟩

/-- The body of the response of `isAdmin` to a caller who is not an administrator. -/
def adminRequired : Json :=
  .obj [("message", .str "Unauthorized: Admin access required")]

/-- The email check that `POST /register` sends. -/
def emailCheckQuery (email : Json) : Query :=
  ⟨.selectIdByEmail, [email]⟩

/-- The insert that `POST /register` sends. -/
def userInsertQuery (name email passwordHash : Json) : Query :=
  ⟨.insertUser, [name, email, passwordHash]⟩

/-- The body of the response to a successful registration. -/
def registered (userId : Json) : Json :=
  .obj [("message", .str "Registration successful"), ("userId", userId)]

/-- The database after `Stmt.insertUser` has added a user. -/
def Store.withUser (s : Store) (name email passwordHash : Json) : Store :=
  { s with
    users := s.users ++ [userRow s.nextUserId name email passwordHash s.now],
    nextUserId := s.nextUserId + 1 }

/-- The header insert that `POST /orders` sends for a request. -/
def orderInsertQuery (req : Req) : Query :=
  ⟨.insertOrder,
    [req.body.get "userId", req.body.get "totalAmount", req.body.get "shippingAddress"]⟩

/-- The body of the response to a placed order. -/
def orderPlaced (orderId : Json) : Json :=
  .obj [("orderId", orderId), ("message", .str "Order placed successfully")]

/-- The database after `Stmt.insertOrder` has added the header of a request. -/
def Store.withOrder (s : Store) (req : Req) : Store :=
  { s with
    orders := s.orders ++
      [orderRow s.nextOrderId (req.body.get "userId") (req.body.get "totalAmount")
        (req.body.get "shippingAddress") s.orderStatus s.now],
    nextOrderId := s.nextOrderId + 1 }

/-- The body sent by the callback of a pass-through write. -/
def echoBody : Except Json Row → Json
  | .error err => err
  | .ok data => .obj data

/-! ## Sample data

Small concrete stand-ins for the library parameters, a database and requests,
on which the statements below are instantiated. -/

/-- A stand-in for the `validator` functions: an email has an `@`, and the
sanitizers leave their input as it is. -/
def sampleLib : ValidatorLib :=
  ⟨fun s => s.toList.contains '@', fun s => s, fun s => s⟩

/-- A stand-in for `bcrypt`: the hash of a password is the password behind a
marker, and a stored string matches the password it was made from. -/
def sampleBcrypt : Bcrypt :=
  ⟨fun pw _ => "$2b$10$" ++ pw,
    fun pw stored =>
      match stored with
      | .str t => some (t == "$2b$10$" ++ pw)
      | _ => none⟩

/-- The stored record of Alice, an ordinary user. -/
def aliceRow : Row :=
  [("id", .ofNat 1), ("name", .str "Alice"), ("email", .str "alice@example.com"),
    ("password", .str "$2b$10$Passw0rd!"), ("role", .str "user"),
    ("created_at", .str "2024-01-01 00:00:00")]

/-- The stored record of Root, an administrator. -/
def rootRow : Row :=
  [("id", .ofNat 2), ("name", .str "Root"), ("email", .str "root@example.com"),
    ("password", .str "$2b$10$S3cret!pw"), ("role", .str "admin"),
    ("created_at", .str "2024-01-01 00:00:00")]

/-- A database without any row. -/
def emptyStore : Store :=
  ⟨[], [], [], 1, 1, .str "2024-06-01 12:00:00", .str "pending"⟩

/-- A database with the users Alice and Root. -/
def sampleStore : Store :=
  ⟨[aliceRow, rootRow], [], [], 3, 1, .str "2024-06-01 12:00:00", .str "pending"⟩

/-- Alice logging in with her password. -/
def aliceLogin : AuthBody :=
  ⟨none, some "alice@example.com", some "Passw0rd!"⟩

/-- Alice logging in with a wrong password. -/
def aliceWrongLogin : AuthBody :=
  ⟨none, some "alice@example.com", some "letmein"⟩

/-- A login body without any field. -/
def emptyLogin : AuthBody :=
  ⟨none, none, none⟩

/-- A registration whose password has no special character. -/
def weakRegistration : AuthBody :=
  ⟨some "Bob", some "bob@example.com", some "Passw0rd"⟩

/-- A valid registration of Bob, who is not in `sampleStore`. -/
def bobRegistration : AuthBody :=
  ⟨some "Bob", some "bob@example.com", some "Passw0rd!"⟩

/-- A request whose body claims the identity of Alice (an ordinary user). -/
def aliceRequest : Req :=
  ⟨[("userId", .ofNat 1)], [], []⟩

/-- A request whose body claims the identity of Root (an administrator). -/
def rootRequest : Req :=
  ⟨[("userId", .ofNat 2)], [], []⟩

/-- The route `GET /admin/dashboard`. -/
def dashboardRoute : Route :=
  ⟨"GET", "/admin/dashboard", [isAdmin], adminDashboard⟩

/-- The order of the specification: one item, product 7, quantity 2, price 9.99. -/
def sampleOrder : Req :=
  ⟨[("userId", .ofNat 1), ("totalAmount", .num 1998 2), ("shippingAddress", .str "1 Main Street"),
      ("items", .arr [.obj [("productId", .ofNat 7), ("quantity", .ofNat 2),
        ("price", .num 999 2)]])],
    [], []⟩

/-- The items of `sampleOrder`. -/
def sampleItems : List Row :=
  [[("productId", .ofNat 7), ("quantity", .ofNat 2), ("price", .num 999 2)]]

/-- The error of a statement that lost a lock wait. -/
def lockTimeout : Json :=
  .obj [("code", .str "ER_LOCK_WAIT_TIMEOUT")]

/-- A server on which every insert into `order_items` fails. -/
def failOrderItems : Query → Option Json :=
  fun q => if q.stmt = .insertOrderItems then some lockTimeout else none

/-- A request without body, parameters or query string. -/
def emptyRequest : Req :=
  ⟨[], [], []⟩

/-- The error of a `NULL` in a column declared `NOT NULL`. -/
def badNull : Json :=
  .obj [("code", .str "ER_BAD_NULL_ERROR")]

/-! ## The registration password rule -/

theorem dotStarThen_imp_any (p : Char → Bool) (cs : List Char) (h : dotStarThen p cs = true) :
    cs.any p = true := by
  induction cs with
  | nil => simp [dotStarThen] at h
  | cons c cs ih =>
    simp only [dotStarThen, Bool.or_eq_true, Bool.and_eq_true] at h
    simp only [List.any_cons, Bool.or_eq_true]
    rcases h with h | ⟨_, h⟩
    · exact Or.inl h
    · exact Or.inr (ih h)

theorem dotStarThen_eq_any (p : Char → Bool) (cs : List Char)
    (hline : ∀ c ∈ cs, isLineTerminator c = false) : dotStarThen p cs = cs.any p := by
  induction cs with
  | nil => rfl
  | cons c cs ih =>
    have hc : isLineTerminator c = false := hline c (List.mem_cons_self _ _)
    have hcs : ∀ d ∈ cs, isLineTerminator d = false :=
      fun d hd => hline d (List.mem_cons_of_mem _ hd)
    simp [dotStarThen, hc, ih hcs]

theorem registerPasswordOk_eq (pw : String) :
    registerPasswordOk pw = (isLength pw 8 none && matchesPasswordPattern pw) := by
  unfold registerPasswordOk registerPasswordErrors fieldText
  cases h1 : isLength pw 8 none <;> cases h2 : matchesPasswordPattern pw <;> simp [h1, h2]

theorem validatorLength_le (s : String) : validatorLength s ≤ s.length :=
  Nat.sub_le _ _

/-- Whatever the rule accepts has at least eight characters and a character of
each of the four classes. -/
theorem registerPasswordOk_sound (pw : String) (h : registerPasswordOk pw = true) :
    8 ≤ pw.length ∧ pw.toList.any isUpper = true ∧ pw.toList.any isLower = true ∧
      pw.toList.any isDigit = true ∧ pw.toList.any isSpecial = true := by
  rw [registerPasswordOk_eq] at h
  simp only [isLength, matchesPasswordPattern, Bool.and_eq_true, Bool.and_true,
    decide_eq_true_eq] at h
  obtain ⟨hlen, ⟨⟨hd, hl⟩, hu⟩, hs⟩ := h
  exact ⟨le_trans hlen (validatorLength_le pw), dotStarThen_imp_any _ _ hu,
    dotStarThen_imp_any _ _ hl, dotStarThen_imp_any _ _ hd, dotStarThen_imp_any _ _ hs⟩

/-- On passwords without a line terminator the rule is exactly: a measured
length (variation selectors not counted) of at least eight and a character of
each of the four classes. -/
theorem registerPasswordOk_iff_of_single_line (pw : String)
    (hline : ∀ c ∈ pw.toList, isLineTerminator c = false) :
    registerPasswordOk pw = true ↔
      8 ≤ validatorLength pw ∧ pw.toList.any isUpper = true ∧ pw.toList.any isLower = true ∧
        pw.toList.any isDigit = true ∧ pw.toList.any isSpecial = true := by
  rw [registerPasswordOk_eq]
  simp only [isLength, matchesPasswordPattern, Bool.and_eq_true, Bool.and_true,
    decide_eq_true_eq, dotStarThen_eq_any _ _ hline]
  tauto

/-- The example password of the specification is accepted. -/
theorem registerPasswordOk_example : registerPasswordOk "Passw0rd!" = true := by
  decide

/-- C3: the password `Passw0rd`, a line feed, `!` has ten characters, an
uppercase letter, a lowercase letter, a digit and the special character `!`,
and the registration password rule rejects it: the lookahead for the special
character cannot pass the line feed. -/
theorem registerPasswordOk_rejects_class_after_line_feed :
    registerPasswordOk "Passw0rd\n!" = false ∧
      8 ≤ "Passw0rd\n!".length ∧ "Passw0rd\n!".toList.any isUpper = true ∧
      "Passw0rd\n!".toList.any isLower = true ∧ "Passw0rd\n!".toList.any isDigit = true ∧
      "Passw0rd\n!".toList.any isSpecial = true := by
  decide

/-! ## Login -/

theorem loginRoute_of_valid (lib : ValidatorLib) (bc : Bcrypt) (b : AuthBody)
    (hvalid : (loginValidation lib b).1 = []) :
    loginRoute lib bc b = postLogin bc [] (loginValidation lib b).2 := by
  unfold loginRoute
  rw [hvalid]

theorem password_of_valid_login (lib : ValidatorLib) (b : AuthBody)
    (hvalid : (loginValidation lib b).1 = []) :
    (loginValidation lib b).2.password = some (fieldText b.password) := by
  cases hp : b.password with
  | none =>
    simp [loginValidation, hp, fieldText, notEmpty] at hvalid
  | some pw => simp [loginValidation, fieldText, hp]

/-- C1: for a login request that passes validation, the response when the
store returns no user for the email and the response when it returns a user
whose stored hash does not match the supplied password are the same: status
401 with body `error: "Invalid credentials"`. -/
theorem login_unknown_email_and_wrong_password_same_response {σ τ : Type}
    (db₁ : Db σ) (db₂ : Db τ) (lib : ValidatorLib) (bc : Bcrypt) (b : AuthBody)
    (s₁ : σ) (s₂ : τ) (user : Row) (others : List Row)
    (hvalid : (loginValidation lib b).1 = [])
    (habsent : (db₁.select (loginQuery lib b) s₁).1 = .ok [])
    (hfound : (db₂.select (loginQuery lib b) s₂).1 = .ok (user :: others))
    (hmismatch : bc.compare (fieldText b.password) (user.get "password") = some false) :
    ((loginRoute lib bc b).run db₁ s₁).outcome = .sent 401 invalidCredentials ∧
      ((loginRoute lib bc b).run db₂ s₂).outcome = .sent 401 invalidCredentials ∧
      ((loginRoute lib bc b).run db₁ s₁).outcome = ((loginRoute lib bc b).run db₂ s₂).outcome := by
  have hpw := password_of_valid_login lib b hvalid
  have hq : (⟨.selectUserByEmail, [optStr (loginValidation lib b).2.email]⟩ : Query) =
      loginQuery lib b := rfl
  have h1 : ((loginRoute lib bc b).run db₁ s₁).outcome = .sent 401 invalidCredentials := by
    rw [loginRoute_of_valid lib bc b hvalid]
    simp [postLogin, Prog.run, Run.after, hq, habsent, invalidCredentials]
  have h2 : ((loginRoute lib bc b).run db₂ s₂).outcome = .sent 401 invalidCredentials := by
    rw [loginRoute_of_valid lib bc b hvalid]
    simp [postLogin, Prog.run, Run.after, hq, hfound, hpw, hmismatch, invalidCredentials]
  exact ⟨h1, h2, h1.trans h2.symm⟩

theorem login_unknown_email_and_wrong_password_same_response_witness :
    (loginValidation sampleLib aliceWrongLogin).1 = [] ∧
      ((mysql noFault).select (loginQuery sampleLib aliceWrongLogin) emptyStore).1 = .ok [] ∧
      ((mysql noFault).select (loginQuery sampleLib aliceWrongLogin) sampleStore).1 =
        .ok [aliceRow] ∧
      ((loginRoute sampleLib sampleBcrypt aliceWrongLogin).run (mysql noFault) emptyStore).outcome =
        .sent 401 invalidCredentials ∧
      ((loginRoute sampleLib sampleBcrypt aliceWrongLogin).run (mysql noFault) sampleStore).outcome =
        .sent 401 invalidCredentials :=
  have h := login_unknown_email_and_wrong_password_same_response (mysql noFault) (mysql noFault)
    sampleLib sampleBcrypt aliceWrongLogin emptyStore sampleStore aliceRow []
    (by decide) (by rfl) (by rfl) (by rfl)
  ⟨by decide, by rfl, by rfl, h.1, h.2.1⟩

theorem Row.delete_not_mem_keys (r : Row) (k : String) : k ∉ (r.delete k).keys := by
  intro h
  simp only [Row.keys, Row.delete, List.mem_map, List.mem_filter] at h
  obtain ⟨kv, ⟨_, hne⟩, heq⟩ := h
  simp [heq] at hne

theorem Row.get_delete_of_ne (r : Row) (k j : String) (h : j ≠ k) :
    (r.delete k).get j = r.get j := by
  unfold Row.get Row.delete
  congr 1
  induction r with
  | nil => rfl
  | cons kv r ih =>
    obtain ⟨a, v⟩ := kv
    by_cases hak : a = k
    · subst hak
      have hja : (j == a) = false := by simpa using h
      simp [List.filter_cons, List.lookup_cons, hja, ih]
    · have hak2 : (a != k) = true := by simpa using hak
      simp only [List.filter_cons, hak2, if_true, List.lookup_cons, ih]

/-- C2: for a login request that passes validation, when the store returns a
user for the email and the password verifies against that user's stored hash,
the response is the success response (status 200) carrying the stored user
record without its `password` key: `password` is not among the keys of the
returned user, every other property reads as in the stored record, and the
returned entries are exactly the stored entries under other keys. -/
theorem login_success_returns_user_without_password {σ : Type}
    (db : Db σ) (lib : ValidatorLib) (bc : Bcrypt) (b : AuthBody) (s : σ)
    (user : Row) (others : List Row)
    (hvalid : (loginValidation lib b).1 = [])
    (hfound : (db.select (loginQuery lib b) s).1 = .ok (user :: others))
    (hmatch : bc.compare (fieldText b.password) (user.get "password") = some true) :
    ((loginRoute lib bc b).run db s).outcome =
        .sent 200 (.obj [("message", .str "Login successful"),
          ("user", .obj (user.delete "password"))]) ∧
      "password" ∉ (user.delete "password").keys ∧
      (∀ k : String, k ≠ "password" → (user.delete "password").get k = user.get k) ∧
      (∀ kv : String × Json, kv ∈ user.delete "password" ↔ kv ∈ user ∧ kv.1 ≠ "password") := by
  have hpw := password_of_valid_login lib b hvalid
  have hq : (⟨.selectUserByEmail, [optStr (loginValidation lib b).2.email]⟩ : Query) =
      loginQuery lib b := rfl
  refine ⟨?_, Row.delete_not_mem_keys _ _, fun k hk => Row.get_delete_of_ne _ _ _ hk, ?_⟩
  · rw [loginRoute_of_valid lib bc b hvalid]
    simp [postLogin, Prog.run, Run.after, hq, hfound, hpw, hmatch]
  · intro kv
    simp [Row.delete, List.mem_filter]

theorem login_success_returns_user_without_password_witness :
    (loginValidation sampleLib aliceLogin).1 = [] ∧
      ((mysql noFault).select (loginQuery sampleLib aliceLogin) sampleStore).1 = .ok [aliceRow] ∧
      sampleBcrypt.compare (fieldText aliceLogin.password) (aliceRow.get "password") = some true ∧
      ((loginRoute sampleLib sampleBcrypt aliceLogin).run (mysql noFault) sampleStore).outcome =
        .sent 200 (.obj [("message", .str "Login successful"),
          ("user", .obj [("id", .ofNat 1), ("name", .str "Alice"),
            ("email", .str "alice@example.com"), ("role", .str "user"),
            ("created_at", .str "2024-01-01 00:00:00")])]) :=
  ⟨by decide, by rfl, by rfl,
    (login_success_returns_user_without_password (mysql noFault) sampleLib sampleBcrypt
      aliceLogin sampleStore aliceRow [] (by decide) (by rfl) (by rfl)).1⟩

/-! ## Rejected input -/

/-- C6: when `validationResult(req)` of a `POST /register` or `POST /login`
request is not empty, the handler answers with status 400 and the body
`errors: [...]` listing those errors, issues no store query (neither read nor
write), and leaves the store as it was; this holds for every store and
whatever the body holds. -/
theorem invalid_input_rejected_before_store_access {σ : Type}
    (db : Db σ) (bc : Bcrypt) (errors : List FieldError) (body : AuthBody) (s : σ)
    (hinvalid : errors ≠ []) :
    (postRegister bc errors body).run db s = ⟨.sent 400 (validationErrors errors), s, []⟩ ∧
      (postLogin bc errors body).run db s = ⟨.sent 400 (validationErrors errors), s, []⟩ := by
  have hne : errors.isEmpty = false := by
    cases errors with
    | nil => exact absurd rfl hinvalid
    | cons _ _ => rfl
  constructor
  · simp [postRegister, hne, Prog.run, validationErrors]
  · simp [postLogin, hne, Prog.run, validationErrors]

theorem invalid_input_rejected_before_store_access_witness :
    ([⟨"password", passwordMessage, some "Passw0rd"⟩] : List FieldError) ≠ [] ∧
      (postRegister sampleBcrypt [⟨"password", passwordMessage, some "Passw0rd"⟩]
          weakRegistration).run (mysql noFault) sampleStore =
        ⟨.sent 400 (validationErrors [⟨"password", passwordMessage, some "Passw0rd"⟩]),
          sampleStore, []⟩ ∧
      (postLogin sampleBcrypt [⟨"password", passwordMessage, some "Passw0rd"⟩]
          weakRegistration).run (mysql noFault) sampleStore =
        ⟨.sent 400 (validationErrors [⟨"password", passwordMessage, some "Passw0rd"⟩]),
          sampleStore, []⟩ :=
  have h := invalid_input_rejected_before_store_access (mysql noFault) sampleBcrypt
    [⟨"password", passwordMessage, some "Passw0rd"⟩] weakRegistration sampleStore (by decide)
  ⟨by decide, h.1, h.2⟩

/-! ## The admin gate -/

theorem Json.strictEqStr_iff (v : Json) (t : String) :
    v.strictEqStr t = true ↔ v = .str t := by
  cases v <;> simp [Json.strictEqStr]

theorem adminRoutes_prog (r : Route) (hr : r ∈ adminRoutes) (req : Req) :
    r.prog req = (isAdmin req).andThen (r.handler req) := by
  simp only [adminRoutes, List.mem_cons, List.mem_singleton, List.not_mem_nil, or_false] at hr
  rcases hr with h | h | h | h | h | h | h | h | h | h <;> subst h <;> rfl

theorem isAdmin_andThen_run {σ : Type} (db : Db σ) (req : Req) (h : Prog) (s : σ) :
    ((isAdmin req).andThen h).run db s =
      match (db.select (roleQuery req) s).1 with
      | .error err => ⟨.sent 500 err, (db.select (roleQuery req) s).2, [roleQuery req]⟩
      | .ok [] => ⟨.sent 403 adminRequired, (db.select (roleQuery req) s).2, [roleQuery req]⟩
      | .ok (first :: _) =>
        if (first.get "role").strictEqStr "admin" then
          Run.after (roleQuery req) (h.run db (db.select (roleQuery req) s).2)
        else ⟨.sent 403 adminRequired, (db.select (roleQuery req) s).2, [roleQuery req]⟩ := by
  have hq : (⟨.selectRole, [req.body.get "userId"]⟩ : Query) = roleQuery req := rfl
  simp only [isAdmin, Prog.andThen, Prog.run, hq]
  rcases hres : (db.select (roleQuery req) s).1 with err | rows
  · simp [Prog.andThen, Prog.run, Run.after]
  · cases rows with
    | nil => simp [Prog.andThen, Prog.run, Run.after, adminRequired]
    | cons first rest =>
      cases hrole : (first.get "role").strictEqStr "admin" <;>
        simp [Prog.andThen, Prog.run, Run.after, adminRequired, hrole]

/-- C4: on every route registered under `/admin/` and for every request,
`isAdmin` calls `next` exactly when the role lookup for the claimed `userId`
succeeds and its first row has role `admin`; in that case the route continues
with the guarded handler after the lookup; when the lookup returns no row, or
a first row with any other role, the response is status 403 and the role
lookup is the only query issued (the guarded handler issues none); when the
lookup fails the response is status 500 and again nothing else is issued. -/
theorem admin_routes_run_handler_iff_role_admin {σ : Type}
    (db : Db σ) (r : Route) (hr : r ∈ adminRoutes) (req : Req) (s : σ) :
    (((isAdmin req).run db s).outcome = .next ↔
        ∃ user others, (db.select (roleQuery req) s).1 = .ok (user :: others) ∧
          user.get "role" = .str "admin") ∧
      ((∃ user others, (db.select (roleQuery req) s).1 = .ok (user :: others) ∧
          user.get "role" = .str "admin") →
        (r.prog req).run db s =
          Run.after (roleQuery req) ((r.handler req).run db (db.select (roleQuery req) s).2)) ∧
      (((db.select (roleQuery req) s).1 = .ok [] ∨
          ∃ user others, (db.select (roleQuery req) s).1 = .ok (user :: others) ∧
            user.get "role" ≠ .str "admin") →
        (r.prog req).run db s =
          ⟨.sent 403 adminRequired, (db.select (roleQuery req) s).2, [roleQuery req]⟩) ∧
      (∀ err, (db.select (roleQuery req) s).1 = .error err →
        (r.prog req).run db s =
          ⟨.sent 500 err, (db.select (roleQuery req) s).2, [roleQuery req]⟩) := by
  rw [adminRoutes_prog r hr req, isAdmin_andThen_run]
  have hnext := isAdmin_andThen_run db req .next s
  have hguard : ((isAdmin req).andThen .next) = isAdmin req := by
    simp only [isAdmin, Prog.andThen]
    congr 1
    funext res
    rcases res with err | rows
    · rfl
    · cases rows with
      | nil => rfl
      | cons first rest =>
        cases hrole : (first.get "role").strictEqStr "admin" <;> simp [hrole, Prog.andThen]
  rw [hguard] at hnext
  rw [hnext]
  refine ⟨?_, ?_, ?_, ?_⟩
  · rcases hres : (db.select (roleQuery req) s).1 with err | rows
    · simp
    · cases rows with
      | nil => simp
      | cons first rest =>
        cases hrole : (first.get "role").strictEqStr "admin"
        · have hne : first.get "role" ≠ .str "admin" := by
            intro heq
            rw [← Json.strictEqStr_iff, hrole] at heq
            exact Bool.noConfusion heq
          simp [hne, hrole]
        · have heq : first.get "role" = .str "admin" := (Json.strictEqStr_iff _ _).1 hrole
          simp only [hrole, if_true, Run.after, Prog.run, true_iff]
          exact ⟨first, rest, rfl, heq⟩
  · rintro ⟨user, others, hres, hrole⟩
    rw [hres]
    simp [(Json.strictEqStr_iff _ _).2 hrole]
  · rintro (hres | ⟨user, others, hres, hrole⟩)
    · rw [hres]
    · rw [hres]
      have hfalse : (user.get "role").strictEqStr "admin" = false := by
        cases hb : (user.get "role").strictEqStr "admin"
        · rfl
        · exact absurd ((Json.strictEqStr_iff _ _).1 hb) hrole
      simp [hfalse]
  · intro err hres
    rw [hres]

theorem admin_routes_run_handler_iff_role_admin_witness :
    dashboardRoute ∈ adminRoutes ∧
      ((mysql noFault).select (roleQuery aliceRequest) sampleStore).1 =
        .ok [[("role", .str "user")]] ∧
      (dashboardRoute.prog aliceRequest).run (mysql noFault) sampleStore =
        ⟨.sent 403 adminRequired, sampleStore, [roleQuery aliceRequest]⟩ ∧
      ((isAdmin rootRequest).run (mysql noFault) sampleStore).outcome = .next :=
  have hr : dashboardRoute ∈ adminRoutes := List.mem_cons_self _ _
  ⟨hr, by rfl,
    (admin_routes_run_handler_iff_role_admin (mysql noFault) dashboardRoute hr aliceRequest
      sampleStore).2.2.1
      (Or.inr ⟨[("role", .str "user")], [], by rfl, by
        intro h
        have h2 := (Json.strictEqStr_iff _ _).2 h
        revert h2
        decide⟩),
    (admin_routes_run_handler_iff_role_admin (mysql noFault) dashboardRoute hr rootRequest
      sampleStore).1.2 ⟨[("role", .str "admin")], [], by rfl, by rfl⟩⟩

/-! ## Registration -/

theorem registerRoute_of_valid (lib : ValidatorLib) (bc : Bcrypt) (b : AuthBody)
    (hvalid : (registerValidation lib b).1 = []) :
    registerRoute lib bc b = postRegister bc [] (registerValidation lib b).2 := by
  unfold registerRoute
  rw [hvalid]

theorem userRow_get_email (id : Nat) (name email password createdAt : Json) :
    (userRow id name email password createdAt).get "email" = sqlValue email := by
  rfl

theorem resultHeader_get_insertId (affectedRows insertId : Nat) :
    (resultHeader affectedRows insertId).get "insertId" = .ofNat insertId := by
  rfl

theorem mysql_select_idByEmail (fault : Query → Option Json) (email : Json) (s : Store)
    (h : fault ⟨.selectIdByEmail, [email]⟩ = none) :
    (mysql fault).select ⟨.selectIdByEmail, [email]⟩ s =
      (.ok ((s.users.filter fun u => sqlEq (u.get "email") email).map
        fun u => [("id", u.get "id")]), s) := by
  simp [mysql, h]

theorem mysql_write_insertUser (fault : Query → Option Json) (name email password : Json)
    (s : Store) (h : fault ⟨.insertUser, [name, email, password]⟩ = none) :
    (mysql fault).write ⟨.insertUser, [name, email, password]⟩ s =
      (.ok (resultHeader 1 s.nextUserId), s.withUser name email password) := by
  simp [mysql, h, Store.withUser]

theorem sqlEq_str_self (e : String) : sqlEq (.str e) (.str e) = true := by
  simp [sqlEq]

/-- A valid registration with an email that no stored user has, on a server
that lets the two statements through: the check, then the insert, then 201. -/
theorem register_fresh_run (fault : Query → Option Json) (lib : ValidatorLib) (bc : Bcrypt)
    (name email password : String) (s : Store)
    (hvalid : (registerValidation lib ⟨some name, some email, some password⟩).1 = [])
    (hfresh : ∀ u ∈ s.users, sqlEq (u.get "email") (.str (lib.normalizeEmail email)) = false)
    (hcheck : fault (emailCheckQuery (.str (lib.normalizeEmail email))) = none)
    (hinsert : fault (userInsertQuery (.str (lib.trim name)) (.str (lib.normalizeEmail email))
      (.str (bc.hash password 10))) = none) :
    (registerRoute lib bc ⟨some name, some email, some password⟩).run (mysql fault) s =
      ⟨.sent 201 (registered (.ofNat s.nextUserId)),
        s.withUser (.str (lib.trim name)) (.str (lib.normalizeEmail email))
          (.str (bc.hash password 10)),
        [emailCheckQuery (.str (lib.normalizeEmail email)),
          userInsertQuery (.str (lib.trim name)) (.str (lib.normalizeEmail email))
            (.str (bc.hash password 10))]⟩ := by
  have hnil : (s.users.filter fun u => sqlEq (u.get "email") (.str (lib.normalizeEmail email)))
      = [] := by
    rw [List.filter_eq_nil_iff]
    intro u hu
    simp [hfresh u hu]
  rw [registerRoute_of_valid lib bc _ hvalid]
  simp only [emailCheckQuery, userInsertQuery] at hcheck hinsert
  simp only [postRegister, registerValidation, Prog.run, Run.after, optStr, Option.map,
    fieldText, Option.getD_some, List.isEmpty_nil, Bool.not_true, Bool.false_eq_true, if_false,
    mysql_select_idByEmail fault _ s hcheck, hnil, List.map_nil,
    mysql_write_insertUser fault _ _ _ _ hinsert, resultHeader_get_insertId, registered,
    emailCheckQuery, userInsertQuery]

/-- C5: on a store with no user under the (normalized) email of a valid
registration input, two consecutive `POST /register` calls with that input
behave as follows: the first answers 201 with the identifier generated by the
insert; the second answers with the conflict response `Email already
registered`, issues only the email check (no insert), and leaves the store
exactly as the first call left it. -/
theorem register_same_email_twice (lib : ValidatorLib) (bc : Bcrypt)
    (name email password : String) (s : Store)
    (hvalid : (registerValidation lib ⟨some name, some email, some password⟩).1 = [])
    (hfresh : ∀ u ∈ s.users, sqlEq (u.get "email") (.str (lib.normalizeEmail email)) = false) :
    ((registerRoute lib bc ⟨some name, some email, some password⟩).run (mysql noFault) s).outcome =
        .sent 201 (registered (.ofNat s.nextUserId)) ∧
      (registerRoute lib bc ⟨some name, some email, some password⟩).run (mysql noFault)
          ((registerRoute lib bc ⟨some name, some email, some password⟩).run (mysql noFault) s).store =
        ⟨.sent 400 (.obj [("error", .str "Email already registered")]),
          ((registerRoute lib bc ⟨some name, some email, some password⟩).run (mysql noFault) s).store,
          [emailCheckQuery (.str (lib.normalizeEmail email))]⟩ := by
  have hfirst := register_fresh_run noFault lib bc name email password s hvalid hfresh rfl rfl
  rw [hfirst]
  refine ⟨rfl, ?_⟩
  have hnil : (s.users.filter fun u => sqlEq (u.get "email") (.str (lib.normalizeEmail email)))
      = [] := by
    rw [List.filter_eq_nil_iff]
    intro u hu
    simp [hfresh u hu]
  rw [registerRoute_of_valid lib bc _ hvalid]
  simp only [postRegister, registerValidation, Prog.run, Run.after, optStr, Option.map,
    fieldText, Option.getD_some, List.isEmpty_nil, Bool.not_true, Bool.false_eq_true, if_false,
    mysql_select_idByEmail noFault _ _ rfl, emailCheckQuery]
  simp [Store.withUser, List.filter_append, hnil, List.filter_cons, userRow_get_email, sqlValue,
    sqlEq_str_self, Prog.run]

theorem register_same_email_twice_witness :
    (registerValidation sampleLib ⟨some "Bob", some "bob@example.com", some "Passw0rd!"⟩).1 = [] ∧
      (∀ u ∈ sampleStore.users,
        sqlEq (u.get "email") (.str (sampleLib.normalizeEmail "bob@example.com")) = false) ∧
      ((registerRoute sampleLib sampleBcrypt bobRegistration).run (mysql noFault)
          sampleStore).outcome = .sent 201 (registered (.ofNat 3)) ∧
      ((registerRoute sampleLib sampleBcrypt bobRegistration).run (mysql noFault)
          ((registerRoute sampleLib sampleBcrypt bobRegistration).run (mysql noFault)
            sampleStore).store).outcome =
        .sent 400 (.obj [("error", .str "Email already registered")]) :=
  have hfresh : ∀ u ∈ sampleStore.users,
      sqlEq (u.get "email") (.str (sampleLib.normalizeEmail "bob@example.com")) = false := by
    intro u hu
    simp only [sampleStore, List.mem_cons, List.mem_singleton, List.not_mem_nil, or_false] at hu
    rcases hu with h | h <;> subst h <;> rfl
  have h := register_same_email_twice sampleLib sampleBcrypt "Bob" "bob@example.com" "Passw0rd!"
    sampleStore (by decide) hfresh
  ⟨by decide, hfresh, h.1, congrArg Run.outcome h.2⟩

/-- C9: for a valid registration input whose (normalized) email no stored user
has, when the two store calls succeed, `POST /register` issues the email check
and then exactly one insert, whose values are the trimmed name, the normalized
email and the output of the hash function on the supplied password with work
factor 10; the store gains exactly one user row, with those values and role
`user`; and the response is status 201 with `userId` the identifier generated
by that insert. -/
theorem register_inserts_one_hashed_user (fault : Query → Option Json) (lib : ValidatorLib)
    (bc : Bcrypt) (name email password : String) (s : Store)
    (hvalid : (registerValidation lib ⟨some name, some email, some password⟩).1 = [])
    (hfresh : ∀ u ∈ s.users, sqlEq (u.get "email") (.str (lib.normalizeEmail email)) = false)
    (hcheck : fault (emailCheckQuery (.str (lib.normalizeEmail email))) = none)
    (hinsert : fault (userInsertQuery (.str (lib.trim name)) (.str (lib.normalizeEmail email))
      (.str (bc.hash password 10))) = none) :
    ((registerRoute lib bc ⟨some name, some email, some password⟩).run (mysql fault) s).trace =
        [⟨.selectIdByEmail, [.str (lib.normalizeEmail email)]⟩,
          ⟨.insertUser, [.str (lib.trim name), .str (lib.normalizeEmail email),
            .str (bc.hash password 10)]⟩] ∧
      ((registerRoute lib bc ⟨some name, some email, some password⟩).run (mysql fault) s).store =
        { s with
          users := s.users ++
            [[("id", .ofNat s.nextUserId), ("name", .str (lib.trim name)),
              ("email", .str (lib.normalizeEmail email)),
              ("password", .str (bc.hash password 10)), ("role", .str "user"),
              ("created_at", s.now)]],
          nextUserId := s.nextUserId + 1 } ∧
      ((registerRoute lib bc ⟨some name, some email, some password⟩).run (mysql fault) s).outcome =
        .sent 201 (.obj [("message", .str "Registration successful"),
          ("userId", .ofNat s.nextUserId)]) ∧
      ((mysql fault).write ⟨.insertUser, [.str (lib.trim name), .str (lib.normalizeEmail email),
          .str (bc.hash password 10)]⟩ s).1 = .ok (resultHeader 1 s.nextUserId) := by
  rw [register_fresh_run fault lib bc name email password s hvalid hfresh hcheck hinsert]
  simp only [userInsertQuery] at hinsert
  refine ⟨rfl, rfl, rfl, ?_⟩
  rw [mysql_write_insertUser fault _ _ _ _ hinsert]

theorem register_inserts_one_hashed_user_witness :
    (registerValidation sampleLib ⟨some "Bob", some "bob@example.com", some "Passw0rd!"⟩).1 = [] ∧
      ((registerRoute sampleLib sampleBcrypt bobRegistration).run (mysql noFault)
          sampleStore).store.users =
        [aliceRow, rootRow,
          [("id", .ofNat 3), ("name", .str "Bob"), ("email", .str "bob@example.com"),
            ("password", .str "$2b$10$Passw0rd!"), ("role", .str "user"),
            ("created_at", .str "2024-06-01 12:00:00")]] ∧
      ((registerRoute sampleLib sampleBcrypt bobRegistration).run (mysql noFault)
          sampleStore).outcome = .sent 201 (registered (.ofNat 3)) :=
  have hfresh : ∀ u ∈ sampleStore.users,
      sqlEq (u.get "email") (.str (sampleLib.normalizeEmail "bob@example.com")) = false := by
    intro u hu
    simp only [sampleStore, List.mem_cons, List.mem_singleton, List.not_mem_nil, or_false] at hu
    rcases hu with h | h <;> subst h <;> rfl
  have h := register_inserts_one_hashed_user noFault sampleLib sampleBcrypt "Bob"
    "bob@example.com" "Passw0rd!" sampleStore (by decide) hfresh rfl rfl
  ⟨by decide, congrArg Store.users h.2.1, h.2.2.1⟩

/-! ## Order placement -/

theorem orderItemsValues_objects (orderId : Json) (items : List Row) :
    orderItemsValues orderId (.arr (items.map Json.obj)) =
      some (items.map fun it =>
        .arr [orderId, it.get "productId", it.get "quantity", it.get "price"]) := by
  simp only [orderItemsValues]
  induction items with
  | nil => rfl
  | cons it items ih =>
    simp only [List.map_cons, List.mapM_cons, ih]
    rfl

theorem mapM_orderItemOfValues (orderId : Json) (items : List Row) :
    (items.map fun it =>
        Json.arr [orderId, it.get "productId", it.get "quantity", it.get "price"]).mapM
      orderItemOfValues =
      some (items.map fun it =>
        [("order_id", sqlValue orderId), ("product_id", sqlValue (it.get "productId")),
          ("quantity", sqlValue (it.get "quantity")), ("price", sqlValue (it.get "price"))]) := by
  induction items with
  | nil => rfl
  | cons it items ih =>
    simp only [List.map_cons, List.mapM_cons, ih]
    rfl

theorem mysql_write_insertOrder (fault : Query → Option Json) (req : Req) (s : Store)
    (h : fault (orderInsertQuery req) = none) :
    (mysql fault).write (orderInsertQuery req) s =
      (.ok (resultHeader 1 s.nextOrderId), s.withOrder req) := by
  simp only [orderInsertQuery] at h
  simp [mysql, h, Store.withOrder, orderInsertQuery]

theorem mysql_write_error_store (fault : Query → Option Json) (q : Query) (s : Store)
    (err : Json) (h : ((mysql fault).write q s).1 = .error err) :
    ((mysql fault).write q s).2 = s := by
  simp only [mysql] at h ⊢
  split at h
  · simp_all
  · split at h
    · simp at h
    · simp at h
    · split at h
      · simp at h
      · simp_all
    · simp_all

theorem postOrders_run_header_ok (fault : Query → Option Json) (req : Req) (s : Store)
    (tuples : List Json)
    (hheader : fault (orderInsertQuery req) = none)
    (hvalues : orderItemsValues (.ofNat s.nextOrderId) (req.body.get "items") = some tuples) :
    (postOrders req).run (mysql fault) s =
      Run.after (orderInsertQuery req) (Run.after ⟨.insertOrderItems, [.arr tuples]⟩
        ⟨.sent 200 (match ((mysql fault).write ⟨.insertOrderItems, [.arr tuples]⟩
            (s.withOrder req)).1 with
          | .error err => err
          | .ok _ => orderPlaced (.ofNat s.nextOrderId)),
          ((mysql fault).write ⟨.insertOrderItems, [.arr tuples]⟩ (s.withOrder req)).2, []⟩) := by
  have hq : (⟨.insertOrder, [req.body.get "userId", req.body.get "totalAmount",
      req.body.get "shippingAddress"]⟩ : Query) = orderInsertQuery req := rfl
  simp only [postOrders, Prog.run, hq, mysql_write_insertOrder fault req s hheader,
    resultHeader_get_insertId, hvalues]
  rcases ((mysql fault).write ⟨.insertOrderItems, [.arr tuples]⟩ (s.withOrder req)).1 with e | d
  · simp [Prog.run]
  · simp [Prog.run, orderPlaced]

/-- C7 (as the code behaves): when the order-header insert of a `POST /orders`
request succeeds and the following order-items insert fails, the handler sends
the error object of the store with status 200, and the Order row written by
the header insert stays in the store: the orders table is the table before the
request followed by that row, and the order_items table is as before. -/
theorem place_order_items_failure_leaves_order_row (fault : Query → Option Json) (req : Req)
    (s : Store) (tuples : List Json) (err : Json)
    (hheader : fault (orderInsertQuery req) = none)
    (hvalues : orderItemsValues (.ofNat s.nextOrderId) (req.body.get "items") = some tuples)
    (hfail : ((mysql fault).write ⟨.insertOrderItems, [.arr tuples]⟩ (s.withOrder req)).1 =
      .error err) :
    (postOrders req).run (mysql fault) s =
        ⟨.sent 200 err, s.withOrder req,
          [orderInsertQuery req, ⟨.insertOrderItems, [.arr tuples]⟩]⟩ ∧
      (s.withOrder req).orders = s.orders ++
        [orderRow s.nextOrderId (req.body.get "userId") (req.body.get "totalAmount")
          (req.body.get "shippingAddress") s.orderStatus s.now] ∧
      (s.withOrder req).orderItems = s.orderItems := by
  refine ⟨?_, rfl, rfl⟩
  rw [postOrders_run_header_ok fault req s tuples hheader hvalues,
    mysql_write_error_store fault _ _ err hfail, hfail]
  rfl

theorem place_order_items_failure_leaves_order_row_witness :
    failOrderItems (orderInsertQuery sampleOrder) = none ∧
      ((postOrders sampleOrder).run (mysql failOrderItems) emptyStore).outcome =
        .sent 200 lockTimeout ∧
      ((postOrders sampleOrder).run (mysql failOrderItems) emptyStore).store.orders =
        [orderRow 1 (.ofNat 1) (.num 1998 2) (.str "1 Main Street") (.str "pending")
          (.str "2024-06-01 12:00:00")] :=
  have h := place_order_items_failure_leaves_order_row failOrderItems sampleOrder emptyStore
    (sampleItems.map fun it =>
      .arr [.ofNat 1, it.get "productId", it.get "quantity", it.get "price"])
    lockTimeout (by rfl) (by rfl) (by rfl)
  ⟨by rfl, congrArg Run.outcome h.1, (congrArg (fun r => r.store.orders) h.1).trans h.2.1⟩

/-- C7 (as stated) fails: on an empty database whose server rejects the insert
into order_items, the header insert of the sample order succeeds, the items
insert fails, and after the handler has finished the orders table holds the
Order row of the request, so it is not the table from before the request. -/
theorem place_order_items_failure_orphans_header :
    ((mysql failOrderItems).write (orderInsertQuery sampleOrder) emptyStore).1 =
        .ok (resultHeader 1 1) ∧
      ((mysql failOrderItems).write
          ⟨.insertOrderItems, [.arr [.arr [.ofNat 1, .ofNat 7, .ofNat 2, .num 999 2]]]⟩
          (emptyStore.withOrder sampleOrder)).1 = .error lockTimeout ∧
      ((postOrders sampleOrder).run (mysql failOrderItems) emptyStore).trace.map Query.stmt =
        [.insertOrder, .insertOrderItems] ∧
      ((postOrders sampleOrder).run (mysql failOrderItems) emptyStore).store.orders.length = 1 ∧
      ((postOrders sampleOrder).run (mysql failOrderItems) emptyStore).store.orders ≠
        emptyStore.orders := by
  refine ⟨by rfl, by rfl, by rfl, by rfl, ?_⟩
  intro h
  have hlen := congrArg List.length h
  revert hlen
  decide

theorem mysql_write_insertOrderItems (fault : Query → Option Json) (orderId : Json)
    (items : List Row) (s : Store) (hne : items ≠ [])
    (h : fault ⟨.insertOrderItems, [.arr (items.map fun it =>
      .arr [orderId, it.get "productId", it.get "quantity", it.get "price"])]⟩ = none) :
    (mysql fault).write ⟨.insertOrderItems, [.arr (items.map fun it =>
        .arr [orderId, it.get "productId", it.get "quantity", it.get "price"])]⟩ s =
      (.ok (resultHeader items.length 0),
        { s with orderItems := s.orderItems ++ items.map fun it =>
          [("order_id", sqlValue orderId), ("product_id", sqlValue (it.get "productId")),
            ("quantity", sqlValue (it.get "quantity")), ("price", sqlValue (it.get "price"))] }) := by
  obtain ⟨it, others, rfl⟩ := List.exists_cons_of_ne_nil hne
  have hrows := mapM_orderItemOfValues orderId (it :: others)
  simp only [mysql, h, hrows]
  simp

/-- C8: for a `POST /orders` request whose `items` is a non-empty list of
objects, when both inserts succeed: the queries issued are the header insert
with the supplied userId, totalAmount and shippingAddress, followed by one
order_items insert whose rows are, in the order of `items`, one row
`[orderId, item.productId, item.quantity, item.price]` per item, where orderId
is the identifier generated by the header insert; the store gains exactly one
Order row and one OrderItem row per item, each carrying that orderId; there
are as many OrderItem rows as items; and the response carries the same orderId. -/
theorem place_order_inserts_header_and_one_row_per_item (fault : Query → Option Json)
    (req : Req) (items : List Row) (s : Store)
    (hitems : req.body.get "items" = .arr (items.map Json.obj))
    (hne : items ≠ [])
    (hheader : fault ⟨.insertOrder, [req.body.get "userId", req.body.get "totalAmount",
      req.body.get "shippingAddress"]⟩ = none)
    (hrows : fault ⟨.insertOrderItems, [.arr (items.map fun it =>
      .arr [.ofNat s.nextOrderId, it.get "productId", it.get "quantity", it.get "price"])]⟩
      = none) :
    ((mysql fault).write ⟨.insertOrder, [req.body.get "userId", req.body.get "totalAmount",
        req.body.get "shippingAddress"]⟩ s).1 = .ok (resultHeader 1 s.nextOrderId) ∧
      ((postOrders req).run (mysql fault) s).trace =
        [⟨.insertOrder, [req.body.get "userId", req.body.get "totalAmount",
            req.body.get "shippingAddress"]⟩,
          ⟨.insertOrderItems, [.arr (items.map fun it =>
            .arr [.ofNat s.nextOrderId, it.get "productId", it.get "quantity",
              it.get "price"])]⟩] ∧
      ((postOrders req).run (mysql fault) s).store.orders =
        s.orders ++ [[("id", .ofNat s.nextOrderId), ("user_id", sqlValue (req.body.get "userId")),
          ("total_amount", sqlValue (req.body.get "totalAmount")),
          ("shipping_address", sqlValue (req.body.get "shippingAddress")),
          ("status", s.orderStatus), ("created_at", s.now)]] ∧
      ((postOrders req).run (mysql fault) s).store.orderItems =
        s.orderItems ++ items.map (fun it =>
          [("order_id", .ofNat s.nextOrderId), ("product_id", sqlValue (it.get "productId")),
            ("quantity", sqlValue (it.get "quantity")), ("price", sqlValue (it.get "price"))]) ∧
      (items.map fun it =>
        Json.arr [.ofNat s.nextOrderId, it.get "productId", it.get "quantity",
          it.get "price"]).length = items.length ∧
      ((postOrders req).run (mysql fault) s).outcome =
        .sent 200 (.obj [("orderId", .ofNat s.nextOrderId),
          ("message", .str "Order placed successfully")]) := by
  have hvalues := orderItemsValues_objects (.ofNat s.nextOrderId) items
  rw [← hitems] at hvalues
  have hrun := postOrders_run_header_ok fault req s _ hheader hvalues
  rw [mysql_write_insertOrderItems fault _ items _ hne hrows] at hrun
  rw [hrun]
  refine ⟨?_, rfl, rfl, rfl, by simp, rfl⟩
  have h := mysql_write_insertOrder fault req s hheader
  simp only [orderInsertQuery] at h
  rw [h]

theorem place_order_inserts_header_and_one_row_per_item_witness :
    sampleOrder.body.get "items" = .arr (sampleItems.map Json.obj) ∧
      sampleItems ≠ [] ∧
      ((postOrders sampleOrder).run (mysql noFault) emptyStore).store.orders =
        [[("id", .ofNat 1), ("user_id", .ofNat 1), ("total_amount", .num 1998 2),
          ("shipping_address", .str "1 Main Street"), ("status", .str "pending"),
          ("created_at", .str "2024-06-01 12:00:00")]] ∧
      ((postOrders sampleOrder).run (mysql noFault) emptyStore).store.orderItems =
        [[("order_id", .ofNat 1), ("product_id", .ofNat 7), ("quantity", .ofNat 2),
          ("price", .num 999 2)]] ∧
      ((postOrders sampleOrder).run (mysql noFault) emptyStore).outcome =
        .sent 200 (.obj [("orderId", .ofNat 1), ("message", .str "Order placed successfully")]) :=
  have hne : sampleItems ≠ [] := by
    intro h
    exact List.noConfusion h
  have h := place_order_inserts_header_and_one_row_per_item noFault sampleOrder sampleItems
    emptyStore (by rfl) hne (by rfl) (by rfl)
  ⟨by rfl, hne, h.2.2.1, h.2.2.2.1, h.2.2.2.2.2⟩

/-! ## Requests with missing fields -/

theorem writeRoutes_run {σ : Type} (db : Db σ) (r : Route) (hr : r ∈ writeRoutes) (req : Req)
    (s : σ) :
    ∃ q : Query, (r.prog req).run db s =
      ⟨.sent 200 (echoBody (db.write q s).1), (db.write q s).2, [q]⟩ := by
  have hecho : ∀ (q : Query), (Prog.write q echoWrite).run db s =
      ⟨.sent 200 (echoBody (db.write q s).1), (db.write q s).2, [q]⟩ := by
    intro q
    simp only [Prog.run]
    rcases (db.write q s).1 with e | d <;> simp [echoWrite, echoBody, Prog.run, Run.after]
  simp only [writeRoutes, List.mem_cons, List.mem_singleton, List.not_mem_nil, or_false] at hr
  rcases hr with h | h | h | h | h <;> subst h <;> exact ⟨_, hecho _⟩

/-- C10 (as the code behaves): on `POST /create`, `PUT /products/:id`,
`POST /categories`, `POST /cart` and `PUT /users/:userId`, every request, with
or without its body fields (an absent field reaches the statement as
`undefined`), issues one statement and is answered with status 200 whatever
the store returns: the body is the result of the store, or its error object
when the statement failed.  `POST /orders` is answered with status 200 as well
whenever `items` is an array of objects. -/
theorem write_routes_answer_200_whatever_the_fields {σ : Type} (db : Db σ) (req : Req) (s : σ) :
    (∀ r ∈ writeRoutes, ∃ q : Query, (r.prog req).run db s =
        ⟨.sent 200 (echoBody (db.write q s).1), (db.write q s).2, [q]⟩) ∧
      (∀ items : List Row, req.body.get "items" = .arr (items.map Json.obj) →
        ∃ body, ((postOrders req).run db s).outcome = .sent 200 body) := by
  refine ⟨fun r hr => writeRoutes_run db r hr req s, ?_⟩
  intro items hitems
  simp only [postOrders, Prog.run, Run.after]
  rcases (db.write _ s).1 with e | d
  · exact ⟨e, rfl⟩
  · simp only [hitems, orderItemsValues_objects, Prog.run, Run.after]
    rcases (db.write _ _).1 with e | d2
    · exact ⟨e, rfl⟩
    · exact ⟨_, rfl⟩

theorem write_routes_answer_200_whatever_the_fields_witness :
    (⟨"POST", "/create", [], postCreate⟩ : Route) ∈ writeRoutes ∧
      (∃ q : Query, (postCreate emptyRequest).run (mysql noFault) emptyStore =
        ⟨.sent 200 (echoBody ((mysql noFault).write q emptyStore).1),
          ((mysql noFault).write q emptyStore).2, [q]⟩) ∧
      (∃ body, ((postOrders sampleOrder).run (mysql noFault) emptyStore).outcome =
        .sent 200 body) :=
  have h := write_routes_answer_200_whatever_the_fields (mysql noFault)
  ⟨List.mem_cons_self _ _,
    (h emptyRequest emptyStore).1 ⟨"POST", "/create", [], postCreate⟩ (List.mem_cons_self _ _),
    (h sampleOrder emptyStore).2 sampleItems (by rfl)⟩

/-- C10 (as stated) fails: `POST /create` with an empty body, in which every
required field is missing, is answered with status 200, both when the store
accepts the statement and when it rejects it, so the response is not a 4xx. -/
theorem create_with_missing_fields_answers_200 :
    emptyRequest.body.get "name" = .undefined ∧
      (postCreate emptyRequest).run (fixedDb (.ok []) (.ok (resultHeader 1 1))) () =
        ⟨.sent 200 (.obj (resultHeader 1 1)), (),
          [⟨.insertProduct, [.undefined, .undefined, .undefined]⟩]⟩ ∧
      (postCreate emptyRequest).run (fixedDb (.ok []) (.error badNull)) () =
        ⟨.sent 200 badNull, (), [⟨.insertProduct, [.undefined, .undefined, .undefined]⟩]⟩ ∧
      ¬ (400 ≤ 200 ∧ 200 < 500) := by
  refine ⟨by rfl, by rfl, by rfl, by decide⟩

end Seller
